import Mathlib

/-!
Verification of the forwarding-bot core (src/main.py) against its
specification.  The data model and the handler functions are embedded
shallowly: Python dicts become association lists, the per-user JSON config
file becomes the `Config` structure, handler coroutines become pure
functions from their inputs (and the relevant external outcomes) to a
result record holding the persisted config, the updated per-user context
data, the replies sent, and the next conversation state.
-/

namespace DoItAllBot

/-! ### Conversation states (main.py line 26, REMOVE_RULE + 10 at line 498) -/

def MAIN_MENU : Nat := 0
def SET_CREDENTIALS : Nat := 1
def SET_FORWARDING : Nat := 2
def REMOVE_RULE : Nat := 3
def VERIFY_CODE : Nat := 4
def VERIFY_2FA : Nat := 5

/-! ### The forwarding-rules table

`config["forwarding_rules"]` is a JSON object mapping a string source-chat
key to a list of integer destination ids.  We embed it as an association
list in insertion order, with the three dict primitives used by the code:
membership/indexing (`lookupKey`), in-place value update (`setKey`, which
keeps the position of an existing key), and `del` (`delKey`). -/

abbrev Rules := List (String × List Int)

def lookupKey : Rules → String → Option (List Int)
  | [], _ => none
  | (k', v') :: rest, k => if k' = k then some v' else lookupKey rest k

def setKey : Rules → String → List Int → Rules
  | [], k, v => [(k, v)]
  | (k', v') :: rest, k, v =>
      if k' = k then (k, v) :: rest else (k', v') :: setKey rest k v

def delKey : Rules → String → Rules
  | [], _ => []
  | (k', v') :: rest, k =>
      if k' = k then delKey rest k else (k', v') :: delKey rest k

/-- Per-user persisted config file (`data/<user_id>.json`): keys `api_id`,
`api_hash`, `phone`, `forwarding_rules`.  A missing file loads as the empty
dict, i.e. all fields absent/empty; the on-disk JSON I/O itself is out of
scope, so `Config` models the persisted content directly. -/
structure Config where
  api_id : Option Int := none
  api_hash : Option String := none
  phone : Option String := none
  forwarding_rules : Rules := []
deriving DecidableEq

/-- Lines 380-385 of `set_forwarding`: insert `dest_id` under
`str(source_id)` — append when the key exists and the destination is new,
no-op when it is already present, create a singleton list otherwise. -/
def add_destination (rules : Rules) (source_id dest_id : Int) : Rules :=
  let src_key := toString source_id
  match lookupKey rules src_key with
  | some dests =>
      if dest_id ∈ dests then rules else setKey rules src_key (dests ++ [dest_id])
  | none => rules ++ [(src_key, [dest_id])]

/-! ### Association-list lemmas -/

theorem lookupKey_setKey (rules : Rules) (k : String) (v : List Int) :
    lookupKey (setKey rules k v) k = some v := by
  induction rules with
  | nil => simp [setKey, lookupKey]
  | cons p rest ih =>
      by_cases h : p.1 = k
      · simp [setKey, lookupKey, h]
      · simp [setKey, lookupKey, h, ih]

theorem lookupKey_append_of_none (rules l : Rules) (k : String)
    (h : lookupKey rules k = none) :
    lookupKey (rules ++ l) k = lookupKey l k := by
  induction rules with
  | nil => simp
  | cons p rest ih =>
      by_cases hk : p.1 = k
      · simp [lookupKey, hk] at h
      · simp [lookupKey, hk] at h ⊢
        exact ih h

theorem lookupKey_delKey (rules : Rules) (k : String) :
    lookupKey (delKey rules k) k = none := by
  induction rules with
  | nil => simp [delKey, lookupKey]
  | cons p rest ih =>
      by_cases h : p.1 = k
      · simp [delKey, h, ih]
      · simp [delKey, lookupKey, h, ih]

theorem mem_of_lookupKey (rules : Rules) (k : String) (v : List Int)
    (h : lookupKey rules k = some v) : (k, v) ∈ rules := by
  induction rules with
  | nil => simp [lookupKey] at h
  | cons p rest ih =>
      by_cases hk : p.1 = k
      · simp [lookupKey, hk] at h
        have hp : p = (k, v) := by
          cases p
          simp_all
        rw [hp]
        exact List.mem_cons_self _ _
      · simp [lookupKey, hk] at h
        exact List.mem_cons_of_mem _ (ih h)

/-- After an add, the source key maps to a list containing the new
destination. -/
theorem lookupKey_add_destination (rules : Rules) (s d : Int) :
    ∃ dests, lookupKey (add_destination rules s d) (toString s) = some dests ∧
      d ∈ dests := by
  cases h : lookupKey rules (toString s) with
  | none =>
      refine ⟨[d], ?_, by simp⟩
      simp only [add_destination, h]
      rw [lookupKey_append_of_none rules _ _ h]
      simp [lookupKey]
  | some dests =>
      by_cases hd : d ∈ dests
      · refine ⟨dests, ?_, hd⟩
        simp only [add_destination, h]
        simpa [hd] using h
      · refine ⟨dests ++ [d], ?_, by simp⟩
        simp only [add_destination, h]
        simp [hd, lookupKey_setKey]

/-- An add whose destination is already present leaves the rules unchanged. -/
theorem add_destination_of_mem (rules : Rules) (s d : Int) (dests : List Int)
    (hl : lookupKey rules (toString s) = some dests) (hd : d ∈ dests) :
    add_destination rules s d = rules := by
  simp only [add_destination, hl]
  simp [hd]

/-- C1: if the destination is already present the add is a no-op on the
rules table, and performing the same add twice equals performing it once. -/
theorem add_destination_idempotent (rules : Rules) (s d : Int) :
    (∀ dests, lookupKey rules (toString s) = some dests → d ∈ dests →
        add_destination rules s d = rules) ∧
    add_destination (add_destination rules s d) s d = add_destination rules s d := by
  refine ⟨fun dests hl hd => add_destination_of_mem rules s d dests hl hd, ?_⟩
  obtain ⟨dests, hl, hd⟩ := lookupKey_add_destination rules s d
  exact add_destination_of_mem _ s d dests hl hd

/-- Witness for C1 at the concrete scenario rule set. -/
theorem add_destination_idempotent_witness :
    add_destination (add_destination [("100", [200])] 100 300) 100 300
        = add_destination [("100", [200])] 100 300 ∧
    add_destination [("100", [200, 300])] 100 300 = [("100", [200, 300])] := by
  refine ⟨(add_destination_idempotent [("100", [200])] 100 300).2, ?_⟩
  exact (add_destination_idempotent [("100", [200, 300])] 100 300).1
    [200, 300] (by decide) (by decide)

/-! ### Main menu rendering (`send_main_menu`, lines 88-124)

`send_main_menu` reloads the user config and sends one message whose text
lists, for every rule, the source key and the Python `repr` of its
destination list.  The handlers below end by sending this menu, so its text
is appended to their reply list. -/

/-- Line 95: `"api_id" in config and "api_hash" in config and "phone" in config`. -/
def creds_set (config : Config) : Bool :=
  config.api_id.isSome && config.api_hash.isSome && config.phone.isSome

/-- Python `repr` of a list of ints, e.g. `[200, 300]`. -/
def renderDests (dests : List Int) : String :=
  "[" ++ String.intercalate ", " (dests.map toString) ++ "]"

/-- One iteration of the rules loop at lines 106-107. -/
def ruleLine (src : String) (dests : List Int) : String :=
  "Source: " ++ src ++ "\n  Destinations: " ++ renderDests dests ++ "\n"

def menuRuleLines (rules : Rules) : List String :=
  rules.map (fun p => ruleLine p.1 p.2)

/-- The text of the main-menu message (lines 98-109). -/
def menuText (config : Config) : String :=
  let credsLine :=
    if creds_set config then "Your Telethon credentials are set.\n"
    else "You have not set your Telethon credentials yet.\n"
  let rulesBlock :=
    if config.forwarding_rules.isEmpty then "You have no forwarding rules set up.\n"
    else "Your forwarding rules:\n" ++ String.join (menuRuleLines config.forwarding_rules)
  "What do you want to do?\n\n" ++ credsLine ++ rulesBlock

/-- The per-user Telethon client held in `context.user_data['telethon_client']`.
What matters for the claims is the multiset of `NewMessage` handlers
attached via `client.on`; each handler closure captures the
`(source_id, dest_id)` pair of the `set_forwarding` call that created it. -/
structure Client where
  handlers : List (Int × Int) := []
deriving DecidableEq

/-- Result of one `set_forwarding` handler invocation: the persisted config
(`save_user_config` at line 386), the client after any handler attachment,
the replies sent in order, and the returned conversation state. -/
structure ForwardingResult where
  config : Config
  client : Option Client
  messages : List String
  nextState : Nat
deriving DecidableEq

/-- Lines 377-402 of `set_forwarding`, after the two-field integer parse has
succeeded: the rule is inserted and saved; then, if no Telethon client is in
`user_data`, an error is reported and the main menu shown; otherwise a new
`forward_handler` closure is attached (with no check for an existing one)
and the success reply plus main menu are sent. -/
def set_forwarding (config : Config) (client : Option Client)
    (source_id dest_id : Int) : ForwardingResult :=
  let config' :=
    { config with forwarding_rules := add_destination config.forwarding_rules source_id dest_id }
  match client with
  | none =>
      ⟨config', none,
        ["Telethon client not found. Please set your credentials first.",
         menuText config'], MAIN_MENU⟩
  | some c =>
      ⟨config', some { c with handlers := c.handlers ++ [(source_id, dest_id)] },
        ["Forwarding rule set up successfully! New messages from the source chat will be forwarded.",
         menuText config'], MAIN_MENU⟩

/-- Result of one `remove_rule` handler invocation (lines 414-445): the
config is only read, never written; `remove_source` is the value of
`context.user_data['remove_source']` after the call. -/
structure RemoveRuleResult where
  config : Config
  remove_source : Option String
  messages : List String
  nextState : Nat
deriving DecidableEq

/-- Lines 420-440 of `remove_rule`, after the integer parse has succeeded. -/
def remove_rule (config : Config) (prev_remove_source : Option String)
    (source_id : Int) : RemoveRuleResult :=
  let src_key := toString source_id
  match lookupKey config.forwarding_rules src_key with
  | none =>
      ⟨config, prev_remove_source,
        ["No forwarding rule exists for that source chat ID."], REMOVE_RULE⟩
  | some dests =>
      ⟨config, some src_key,
        ["Current destinations for source " ++ toString source_id ++ ": " ++
          renderDests dests ++ "\nPlease send the destination chat ID to remove:"],
        REMOVE_RULE + 10⟩

/-- Result of one `remove_destination` handler invocation (lines 448-486). -/
structure RemoveDestResult where
  config : Config
  messages : List String
  nextState : Nat
deriving DecidableEq

/-- Lines 454-481 of `remove_destination`, after the integer parse has
succeeded.  `remove_source` is `context.user_data.get('remove_source')`;
the Python guard `if not src_key or src_key not in config.get(...)` treats
a missing value and the empty string as invalid. -/
def remove_destination (config : Config) (remove_source : Option String)
    (dest_id : Int) : RemoveDestResult :=
  let invalid : RemoveDestResult :=
    ⟨config, ["No valid source found. Please try again.", menuText config], MAIN_MENU⟩
  match remove_source with
  | none => invalid
  | some src_key =>
      if src_key = "" then invalid
      else
        match lookupKey config.forwarding_rules src_key with
        | none => invalid
        | some dests =>
            if dest_id ∈ dests then
              let dests' := dests.erase dest_id
              let rules' :=
                if dests'.isEmpty then delKey config.forwarding_rules src_key
                else setKey config.forwarding_rules src_key dests'
              let config' := { config with forwarding_rules := rules' }
              ⟨config', ["Destination removed successfully.", menuText config'], MAIN_MENU⟩
            else
              ⟨config, ["That destination is not set for this source. Please try again."],
                REMOVE_RULE + 10⟩

/-! ### The empty-destination-list invariant -/

/-- No source key maps to an empty destination list. -/
def goodRules (rules : Rules) : Prop := ∀ p ∈ rules, p.2 ≠ ([] : List Int)

instance (rules : Rules) : Decidable (goodRules rules) := by
  unfold goodRules
  infer_instance

theorem goodRules_setKey (rules : Rules) (k : String) (v : List Int)
    (hg : goodRules rules) (hv : v ≠ []) : goodRules (setKey rules k v) := by
  induction rules with
  | nil =>
      intro p hp
      simp [setKey] at hp
      simp [hp, hv]
  | cons q rest ih =>
      have hq : q.2 ≠ [] := hg q (List.mem_cons_self _ _)
      have hrest : goodRules rest := fun p hp => hg p (List.mem_cons_of_mem _ hp)
      intro p hp
      by_cases h : q.1 = k
      · simp [setKey, h] at hp
        rcases hp with hp | hp
        · simp [hp, hv]
        · exact hrest p hp
      · simp [setKey, h] at hp
        rcases hp with hp | hp
        · simpa [hp] using hq
        · exact ih hrest p hp

theorem goodRules_delKey (rules : Rules) (k : String)
    (hg : goodRules rules) : goodRules (delKey rules k) := by
  induction rules with
  | nil =>
      intro p hp
      simp [delKey] at hp
  | cons q rest ih =>
      have hq : q.2 ≠ [] := hg q (List.mem_cons_self _ _)
      have hrest : goodRules rest := fun p hp => hg p (List.mem_cons_of_mem _ hp)
      intro p hp
      by_cases h : q.1 = k
      · rw [delKey, if_pos h] at hp
        exact ih hrest p hp
      · rw [delKey, if_neg h] at hp
        rcases List.mem_cons.mp hp with hp | hp
        · simpa [hp] using hq
        · exact ih hrest p hp

theorem goodRules_add_destination (rules : Rules) (s d : Int)
    (hg : goodRules rules) : goodRules (add_destination rules s d) := by
  cases h : lookupKey rules (toString s) with
  | none =>
      simp only [add_destination, h]
      intro p hp
      rcases List.mem_append.mp hp with hp | hp
      · exact hg p hp
      · simp at hp
        simp [hp]
  | some dests =>
      by_cases hd : d ∈ dests
      · simpa only [add_destination, h, if_pos hd] using hg
      · simp only [add_destination, h, if_neg hd]
        exact goodRules_setKey _ _ _ hg (by simp)

theorem goodRules_remove_destination (config : Config) (rs : Option String) (d : Int)
    (hg : goodRules config.forwarding_rules) :
    goodRules (remove_destination config rs d).config.forwarding_rules := by
  cases rs with
  | none => simpa [remove_destination] using hg
  | some k =>
      by_cases hk : k = ""
      · simpa [remove_destination, hk] using hg
      · cases h : lookupKey config.forwarding_rules k with
        | none => simpa [remove_destination, hk, h] using hg
        | some dests =>
            by_cases hd : d ∈ dests
            · simp only [remove_destination, hk, if_neg hk, h, if_pos hd]
              by_cases he : (dests.erase d).isEmpty
              · simpa [he] using goodRules_delKey _ _ hg
              · simp only [he, Bool.false_eq_true, if_false]
                refine goodRules_setKey _ _ _ hg ?_
                intro hnil
                simp [hnil] at he
            · simpa [remove_destination, hk, h, hd] using hg

/-- C3: both rule-set mutations preserve the invariant that no source key
maps to an empty destination list, and removing the only destination of a
source deletes the source key from the persisted rules. -/
theorem rule_set_invariant (config : Config) (rs : Option String) (s d dd : Int)
    (hg : goodRules config.forwarding_rules) :
    goodRules (add_destination config.forwarding_rules s d) ∧
    goodRules (remove_destination config rs dd).config.forwarding_rules ∧
    (∀ k, rs = some k → k ≠ "" →
      lookupKey config.forwarding_rules k = some [dd] →
      lookupKey (remove_destination config rs dd).config.forwarding_rules k = none) := by
  refine ⟨goodRules_add_destination _ s d hg,
    goodRules_remove_destination config rs dd hg, ?_⟩
  intro k hrs hk hl
  subst hrs
  simp only [remove_destination, if_neg hk, hl]
  simp [lookupKey_delKey]

/-- Witness for C3 at the scenario rule set. -/
theorem rule_set_invariant_witness :
    goodRules [("100", [200])] ∧
    goodRules (add_destination [("100", [200])] 100 300) ∧
    goodRules (remove_destination ⟨none, none, none, [("100", [200])]⟩
        (some "100") 200).config.forwarding_rules ∧
    lookupKey (remove_destination ⟨none, none, none, [("100", [200])]⟩
        (some "100") 200).config.forwarding_rules "100" = none := by
  have h := rule_set_invariant ⟨none, none, none, [("100", [200])]⟩
    (some "100") 100 300 200 (by decide)
  exact ⟨by decide, h.1, h.2.1, h.2.2 "100" rfl (by decide) (by decide)⟩

/-- C4: selecting an absent source fails and changes nothing; removing an
absent destination fails and changes nothing; removing the last destination
deletes the source key and returns to the main menu. -/
theorem remove_destination_error_semantics (config : Config)
    (prs : Option String) (s dd : Int) (k : String) (dests : List Int) :
    (lookupKey config.forwarding_rules (toString s) = none →
      remove_rule config prs s =
        ⟨config, prs, ["No forwarding rule exists for that source chat ID."],
          REMOVE_RULE⟩) ∧
    (k ≠ "" → lookupKey config.forwarding_rules k = some dests → dd ∉ dests →
      remove_destination config (some k) dd =
        ⟨config, ["That destination is not set for this source. Please try again."],
          REMOVE_RULE + 10⟩) ∧
    (k ≠ "" → lookupKey config.forwarding_rules k = some [dd] →
      (remove_destination config (some k) dd).config.forwarding_rules
          = delKey config.forwarding_rules k ∧
      lookupKey (remove_destination config (some k) dd).config.forwarding_rules k
          = none ∧
      (remove_destination config (some k) dd).nextState = MAIN_MENU) := by
  refine ⟨?_, ?_, ?_⟩
  · intro h
    simp [remove_rule, h]
  · intro hk hl hd
    simp [remove_destination, hk, hl, hd]
  · intro hk hl
    refine ⟨?_, ?_, ?_⟩ <;>
      simp [remove_destination, hk, hl, lookupKey_delKey]

/-- Witness for C4: the spec scenario — the rule set `[("100", [200])]`
ends empty after removing destination `200` from source `"100"`, an absent
source or destination is rejected with the config unchanged. -/
theorem remove_destination_error_semantics_witness :
    (remove_rule ⟨none, none, none, [("100", [200])]⟩ none 555 =
      ⟨⟨none, none, none, [("100", [200])]⟩, none,
        ["No forwarding rule exists for that source chat ID."], REMOVE_RULE⟩) ∧
    (remove_destination ⟨none, none, none, [("100", [200])]⟩ (some "100") 999 =
      ⟨⟨none, none, none, [("100", [200])]⟩,
        ["That destination is not set for this source. Please try again."],
        REMOVE_RULE + 10⟩) ∧
    (remove_destination ⟨none, none, none, [("100", [200])]⟩
        (some "100") 200).config.forwarding_rules = [] := by
  have h := remove_destination_error_semantics ⟨none, none, none, [("100", [200])]⟩
    none 555 200 "100" [200]
  refine ⟨h.1 (by decide), ?_, ?_⟩
  · exact (remove_destination_error_semantics ⟨none, none, none, [("100", [200])]⟩
      none 555 999 "100" [200]).2.1 (by decide) (by decide) (by decide)
  · have h2 := h.2.2 (by decide) (by decide)
    rw [h2.1]
    decide

/-- C7 counterexample: starting from an empty client, submitting the same
forwarding rule twice attaches two identical handlers — duplicate
registration is not prevented. -/
theorem duplicate_handler_counterexample :
    (set_forwarding
        (set_forwarding ⟨none, none, none, []⟩ (some ⟨[]⟩) 100 200).config
        (set_forwarding ⟨none, none, none, []⟩ (some ⟨[]⟩) 100 200).client
        100 200).client = some ⟨[(100, 200), (100, 200)]⟩ := by
  rfl

/-- C7 amended: every successful `set_forwarding` call with a live client
unconditionally appends one more handler closure for the submitted pair; no
existing registration is checked, so repeats accumulate duplicates. -/
theorem set_forwarding_always_appends_handler (config : Config) (c : Client)
    (s d : Int) :
    (set_forwarding config (some c) s d).client = some ⟨c.handlers ++ [(s, d)]⟩ :=
  rfl

/-- C8: a successful add surfaces the updated destination list to the user —
the final main-menu message renders, for the submitted source key, exactly
the updated list containing the new destination. -/
theorem add_destination_surfaces_updated_list (config : Config) (c : Client)
    (s d : Int) :
    ∃ dests,
      lookupKey (set_forwarding config (some c) s d).config.forwarding_rules
          (toString s) = some dests ∧
      d ∈ dests ∧
      menuText (set_forwarding config (some c) s d).config
          ∈ (set_forwarding config (some c) s d).messages ∧
      ruleLine (toString s) dests
          ∈ menuRuleLines (set_forwarding config (some c) s d).config.forwarding_rules ∧
      (set_forwarding config (some c) s d).config.forwarding_rules.isEmpty = false := by
  obtain ⟨dests, hl, hd⟩ := lookupKey_add_destination config.forwarding_rules s d
  refine ⟨dests, ?_, hd, ?_, ?_, ?_⟩
  · simpa [set_forwarding] using hl
  · simp [set_forwarding]
  · have hm := mem_of_lookupKey _ _ _ hl
    simpa [set_forwarding, menuRuleLines] using List.mem_map_of_mem
      (fun p : String × List Int => ruleLine p.1 p.2) hm
  · cases hr : add_destination config.forwarding_rules s d with
    | nil => rw [hr] at hl; simp [lookupKey] at hl
    | cons q rest => simp [set_forwarding, hr]

/-- C10: with no live Telethon client, a syntactically valid rule is still
persisted (the new destination is in the saved rules) before the
client-not-found error is reported, and no handler is attached. -/
theorem rule_persisted_before_client_error (config : Config) (s d : Int) :
    (set_forwarding config none s d).config.forwarding_rules
        = add_destination config.forwarding_rules s d ∧
    (∃ dests,
      lookupKey (set_forwarding config none s d).config.forwarding_rules (toString s)
          = some dests ∧ d ∈ dests) ∧
    (set_forwarding config none s d).messages.head?
        = some "Telethon client not found. Please set your credentials first." ∧
    (set_forwarding config none s d).client = none ∧
    (set_forwarding config none s d).nextState = MAIN_MENU := by
  refine ⟨rfl, ?_, rfl, rfl, rfl⟩
  simpa [set_forwarding] using lookupKey_add_destination config.forwarding_rules s d

/-! ### Authentication flow (`set_credentials` lines 219-280, `verify_code`
lines 285-317)

The external platform (Telethon) is modelled at its interface: an account
has one correct verification code and may have two-step verification
enabled; `client.sign_in(phone, code)` succeeds on the correct code, raises
`SessionPasswordNeededError` on the correct code of a 2FA account, and
raises an error on any wrong code. -/

inductive SignInResult
  | ok
  | passwordNeeded
  | invalidCode
deriving DecidableEq

structure Platform where
  correctCode : String
  twoFA : Bool
deriving DecidableEq

def sign_in (p : Platform) (code : String) : SignInResult :=
  if code = p.correctCode then
    if p.twoFA then SignInResult.passwordNeeded else SignInResult.ok
  else SignInResult.invalidCode

/-- The per-user `context.user_data` fields the auth flow uses. -/
structure UserData where
  temp_client : Option Client := none
  phone : Option String := none
  telethon_client : Option Client := none
deriving DecidableEq

/-- Python truthiness of an optional int (absent and `0` are falsy). -/
def truthyInt : Option Int → Bool
  | none => false
  | some n => n ≠ 0

/-- Python truthiness of an optional string (absent and `""` are falsy). -/
def truthyStr : Option String → Bool
  | none => false
  | some s => s ≠ ""

/-- Result of one `set_credentials` handler invocation. -/
structure CredResult where
  config : Config
  user_data : UserData
  nextState : Nat
  messages : List String
deriving DecidableEq

/-- Lines 244-276 of `set_credentials`, after the three-field parse has
succeeded.  `authorized` is the platform's answer to
`client.is_user_authorized()`.  If `config.get("api_id")` and
`config.get("api_hash")` are both truthy, a mismatch on either of those two
fields (the stored phone is not compared) is rejected; otherwise the three
submitted fields are stored.  The `get_me() is None` failure of the
already-authorized branch is not modelled. -/
def set_credentials (config : Config) (ud : UserData) (authorized : Bool)
    (api_id : Int) (api_hash phone : String) : CredResult :=
  let proceed : Config → CredResult := fun c =>
    if authorized then
      ⟨c, { ud with telethon_client := some ⟨[]⟩ }, MAIN_MENU,
        ["Telethon credentials set and client started successfully!", menuText c]⟩
    else
      ⟨c, { ud with temp_client := some ⟨[]⟩, phone := some phone }, VERIFY_CODE,
        ["Sending verification code...",
         "Please check your Telegram app for the verification code and send it here."]⟩
  if truthyInt config.api_id && truthyStr config.api_hash then
    if config.api_id ≠ some api_id ∨ config.api_hash ≠ some api_hash then
      ⟨config, ud, SET_CREDENTIALS,
        ["The credentials you provided do not match your stored credentials."]⟩
    else proceed config
  else
    proceed { config with api_id := some api_id, api_hash := some api_hash,
                          phone := some phone }

/-- Result of one `verify_code` handler invocation. -/
structure VerifyResult where
  user_data : UserData
  messages : List String
  nextState : Nat
deriving DecidableEq

/-- Lines 291-317 of `verify_code`: with no pending client or phone the
session is expired; otherwise `sign_in` either succeeds (client cached as
`telethon_client`, temp state cleared), needs a password (state `VERIFY_2FA`),
or raises — the exception is caught and the state re-entered. -/
def verify_code (p : Platform) (config : Config) (ud : UserData)
    (code : String) : VerifyResult :=
  match ud.temp_client with
  | none => ⟨ud, ["Session expired. Please start over with /start", menuText config], MAIN_MENU⟩
  | some client =>
      if truthyStr ud.phone then
        match sign_in p code with
        | SignInResult.passwordNeeded =>
            ⟨ud, ["Two-step verification is enabled. Please send your password."], VERIFY_2FA⟩
        | SignInResult.ok =>
            ⟨{ ud with telethon_client := some client, temp_client := none, phone := none },
              ["Successfully signed in!", menuText config], MAIN_MENU⟩
        | SignInResult.invalidCode =>
            ⟨ud, ["Error during verification. Please try again or start over with /start"],
              VERIFY_CODE⟩
      else ⟨ud, ["Session expired. Please start over with /start", menuText config], MAIN_MENU⟩

/-- C5: a wrong code re-enters `VERIFY_CODE` with the user data unchanged
(no cached session), and a subsequent correct code on a non-2FA account
signs in: the pending client is cached as the authenticated session and the
flow returns to the main menu. -/
theorem wrong_code_then_correct_code (p : Platform) (config : Config)
    (ud : UserData) (cl : Client) (wrong : String)
    (hcl : ud.temp_client = some cl) (hph : truthyStr ud.phone = true)
    (hw : wrong ≠ p.correctCode) (h2fa : p.twoFA = false) :
    (verify_code p config ud wrong).nextState = VERIFY_CODE ∧
    (verify_code p config ud wrong).user_data = ud ∧
    (verify_code p config (verify_code p config ud wrong).user_data
        p.correctCode).nextState = MAIN_MENU ∧
    (verify_code p config (verify_code p config ud wrong).user_data
        p.correctCode).user_data.telethon_client = some cl := by
  have hwrong : verify_code p config ud wrong =
      ⟨ud, ["Error during verification. Please try again or start over with /start"],
        VERIFY_CODE⟩ := by
    simp [verify_code, hcl, hph, sign_in, hw]
  refine ⟨by rw [hwrong], by rw [hwrong], ?_, ?_⟩ <;>
  · rw [hwrong]
    simp [verify_code, hcl, hph, sign_in, h2fa]

/-- Witness for C5: the spec scenario — wrong code `"000000"`, then the
correct code, for a pending login. -/
theorem wrong_code_then_correct_code_witness :
    (verify_code ⟨"12345", false⟩ ⟨none, none, none, []⟩
        ⟨some ⟨[]⟩, some "+1555", none⟩ "000000").nextState = VERIFY_CODE ∧
    (verify_code ⟨"12345", false⟩ ⟨none, none, none, []⟩
        ⟨some ⟨[]⟩, some "+1555", none⟩ "000000").user_data
      = ⟨some ⟨[]⟩, some "+1555", none⟩ ∧
    (verify_code ⟨"12345", false⟩ ⟨none, none, none, []⟩
        (verify_code ⟨"12345", false⟩ ⟨none, none, none, []⟩
          ⟨some ⟨[]⟩, some "+1555", none⟩ "000000").user_data
        "12345").nextState = MAIN_MENU ∧
    (verify_code ⟨"12345", false⟩ ⟨none, none, none, []⟩
        (verify_code ⟨"12345", false⟩ ⟨none, none, none, []⟩
          ⟨some ⟨[]⟩, some "+1555", none⟩ "000000").user_data
        "12345").user_data.telethon_client = some ⟨[]⟩ :=
  wrong_code_then_correct_code ⟨"12345", false⟩ ⟨none, none, none, []⟩
    ⟨some ⟨[]⟩, some "+1555", none⟩ ⟨[]⟩ "000000" rfl (by decide) (by decide) rfl

/-- C6 counterexample: user with bound credentials `(1, "a", "+1")`
resubmits `(1, "a", "+2")` — the phone number differs from the stored one,
yet the submission is not rejected: the flow proceeds to the verification
code (state `VERIFY_CODE`), with no mismatch message. -/
theorem phone_change_not_rejected_counterexample :
    (("+2" : String) ≠ "+1") ∧
    (set_credentials ⟨some 1, some "a", some "+1", []⟩ ⟨none, none, none⟩
        false 1 "a" "+2").nextState = VERIFY_CODE ∧
    (set_credentials ⟨some 1, some "a", some "+1", []⟩ ⟨none, none, none⟩
        false 1 "a" "+2").nextState ≠ SET_CREDENTIALS ∧
    "The credentials you provided do not match your stored credentials."
      ∉ (set_credentials ⟨some 1, some "a", some "+1", []⟩ ⟨none, none, none⟩
          false 1 "a" "+2").messages := by
  decide

/-- C6 amended: once truthy `api_id` and `api_hash` are stored, a
resubmission differing in `api_id` or `api_hash` is rejected with the
mismatch message, re-entering `SET_CREDENTIALS`; and whatever the
resubmission, the stored credentials (phone included) are never changed.
Only the phone field escapes the mismatch check. -/
theorem credential_stability (config : Config) (ud : UserData)
    (authorized : Bool) (api_id : Int) (api_hash phone : String)
    (hid : truthyInt config.api_id = true)
    (hhash : truthyStr config.api_hash = true) :
    ((config.api_id ≠ some api_id ∨ config.api_hash ≠ some api_hash) →
      set_credentials config ud authorized api_id api_hash phone =
        ⟨config, ud, SET_CREDENTIALS,
          ["The credentials you provided do not match your stored credentials."]⟩) ∧
    (set_credentials config ud authorized api_id api_hash phone).config = config := by
  constructor
  · intro hne
    simp [set_credentials, hid, hhash, hne]
  · by_cases hne : config.api_id ≠ some api_id ∨ config.api_hash ≠ some api_hash
    · simp [set_credentials, hid, hhash, hne]
    · cases authorized <;> simp [set_credentials, hid, hhash, hne]

/-- Witness for C6 amended: a changed `api_hash` is rejected and the stored
config kept. -/
theorem credential_stability_witness :
    (set_credentials ⟨some 1, some "a", some "+1", []⟩ ⟨none, none, none⟩
        false 1 "b" "+1" =
      ⟨⟨some 1, some "a", some "+1", []⟩, ⟨none, none, none⟩, SET_CREDENTIALS,
        ["The credentials you provided do not match your stored credentials."]⟩) ∧
    (set_credentials ⟨some 1, some "a", some "+1", []⟩ ⟨none, none, none⟩
        false 1 "b" "+1").config = ⟨some 1, some "a", some "+1", []⟩ := by
  have h := credential_stability ⟨some 1, some "a", some "+1", []⟩ ⟨none, none, none⟩
    false 1 "b" "+1" (by decide) (by decide)
  exact ⟨h.1 (by decide), h.2⟩

/-! ### Forwarding dispatcher (`forward_handler`, lines 393-399)

Each handler attached by `set_forwarding` fires on new messages of its
captured source chat and forwards to its captured destination inside a
`try/except` that logs either outcome.  The transport
(`client.forward_messages`) is modelled as a function from the destination
to `Except`: `Except.error` is a raised transport error. -/

inductive LogEntry
  | forwarded (source_id dest_id : Int)
  | forwardFailed (source_id dest_id : Int) (err : String)
deriving DecidableEq

/-- Lines 394-399: the handler body.  Its result type is a plain log entry,
not an `Except` — the `try/except` catches every transport error, so the
handler itself never raises. -/
def forward_handler (transport : Int → Except String Unit)
    (source_id dest_id : Int) : LogEntry :=
  match transport dest_id with
  | Except.ok _ => LogEntry.forwarded source_id dest_id
  | Except.error e => LogEntry.forwardFailed source_id dest_id e

/-- The platform delivering one inbound event on `chat_id` to one user's
client: every attached handler whose captured source matches the event chat
runs, each producing its own log entry. -/
def dispatchEvent (client : Client) (transport : Int → Except String Unit)
    (chat_id : Int) : List LogEntry :=
  (client.handlers.filter (fun p => p.1 = chat_id)).map
    (fun p => forward_handler transport p.1 p.2)

/-- Event delivery across independent per-user clients. -/
def dispatchAllUsers (clients : List Client)
    (transport : Int → Except String Unit) (chat_id : Int) : List (List LogEntry) :=
  clients.map (fun c => dispatchEvent c transport chat_id)

/-- C2: on an inbound event, a handler whose transport succeeds always logs
its forward — whatever the transport does on every other destination; a
handler whose transport raises has the error caught and logged; every
matching handler completes (one log entry each, event handling never
raises); and each user's dispatch result appears unchanged among the
per-user results. -/
theorem relay_isolation (client : Client) (transport : Int → Except String Unit)
    (chat s d : Int) (hmem : (s, d) ∈ client.handlers) (hs : s = chat)
    (hok : transport d = Except.ok ()) :
    LogEntry.forwarded s d ∈ dispatchEvent client transport chat ∧
    (∀ s' d' e, (s', d') ∈ client.handlers → s' = chat →
      transport d' = Except.error e →
      LogEntry.forwardFailed s' d' e ∈ dispatchEvent client transport chat) ∧
    (dispatchEvent client transport chat).length
      = (client.handlers.filter (fun p => p.1 = chat)).length ∧
    (∀ clients, client ∈ clients →
      dispatchEvent client transport chat ∈ dispatchAllUsers clients transport chat) := by
  refine ⟨?_, ?_, ?_, ?_⟩
  · have hf : (s, d) ∈ client.handlers.filter (fun p => p.1 = chat) :=
      List.mem_filter.mpr ⟨hmem, by simp [hs]⟩
    have := List.mem_map_of_mem
      (fun p : Int × Int => forward_handler transport p.1 p.2) hf
    simpa [dispatchEvent, forward_handler, hok] using this
  · intro s' d' e hmem' hs' herr
    have hf : (s', d') ∈ client.handlers.filter (fun p => p.1 = chat) :=
      List.mem_filter.mpr ⟨hmem', by simp [hs']⟩
    have := List.mem_map_of_mem
      (fun p : Int × Int => forward_handler transport p.1 p.2) hf
    simpa [dispatchEvent, forward_handler, herr] using this
  · simp [dispatchEvent]
  · intro clients hc
    exact List.mem_map_of_mem _ hc

/-- Witness for C2: the spec scenario — source `100`, destinations
`[200, 300]`, the transport raising on `300` only: the forward to `200` is
logged as successful, the failure on `300` is caught and logged, both
handlers complete. -/
theorem relay_isolation_witness :
    (LogEntry.forwarded 100 200 ∈ dispatchEvent ⟨[(100, 200), (100, 300)]⟩
      (fun dst => if dst = 300 then Except.error "transport error" else Except.ok ())
      100 ∧
    (∀ s' d' e, (s', d') ∈ (⟨[(100, 200), (100, 300)]⟩ : Client).handlers → s' = 100 →
      (fun dst => if dst = 300 then Except.error "transport error" else Except.ok ()) d'
        = Except.error e →
      LogEntry.forwardFailed s' d' e ∈ dispatchEvent ⟨[(100, 200), (100, 300)]⟩
        (fun dst => if dst = 300 then Except.error "transport error" else Except.ok ())
        100) ∧
    (dispatchEvent ⟨[(100, 200), (100, 300)]⟩
      (fun dst => if dst = 300 then Except.error "transport error" else Except.ok ())
      100).length
      = ((⟨[(100, 200), (100, 300)]⟩ : Client).handlers.filter
          (fun p => p.1 = 100)).length ∧
    (∀ clients, (⟨[(100, 200), (100, 300)]⟩ : Client) ∈ clients →
      dispatchEvent ⟨[(100, 200), (100, 300)]⟩
        (fun dst => if dst = 300 then Except.error "transport error" else Except.ok ())
        100 ∈ dispatchAllUsers clients
        (fun dst => if dst = 300 then Except.error "transport error" else Except.ok ())
        100)) ∧
    dispatchEvent ⟨[(100, 200), (100, 300)]⟩
      (fun dst => if dst = 300 then Except.error "transport error" else Except.ok ())
      100 = [LogEntry.forwarded 100 200, LogEntry.forwardFailed 100 300 "transport error"] :=
  ⟨relay_isolation ⟨[(100, 200), (100, 300)]⟩
      (fun dst => if dst = 300 then Except.error "transport error" else Except.ok ())
      100 100 200 (by decide) rfl rfl,
   rfl⟩

/-! ### Startup configuration (`run_webserver` lines 77-79, `main` lines
508-518)

`main` first starts the Flask webserver thread, then reads `TOKEN`; only if
`TOKEN` is truthy does bot polling start.  The webserver reads `PORT` with
the default `5000`. -/

structure Env where
  TOKEN : Option String
  PORT : Option Int
deriving DecidableEq

structure StartupResult where
  webserverStarted : Bool
  webserverPort : Int
  botPolling : Bool
deriving DecidableEq

/-- Line 78: `int(os.environ.get("PORT", 5000))`. -/
def run_webserver_port (env : Env) : Int := env.PORT.getD 5000

/-- Lines 510-518: `start_webserver()` runs before the `TOKEN` check, and a
missing or empty `TOKEN` returns from `main` without starting polling. -/
def main (env : Env) : StartupResult :=
  match env.TOKEN with
  | none => ⟨true, run_webserver_port env, false⟩
  | some t =>
      if t = "" then ⟨true, run_webserver_port env, false⟩
      else ⟨true, run_webserver_port env, true⟩

/-- C9 counterexample: with both `TOKEN` and `PORT` absent the process does
not exit without serving — the webserver is started and serves on the
default port 5000; only bot polling is skipped. -/
theorem startup_serves_without_config_counterexample :
    (main ⟨none, none⟩).webserverStarted = true ∧
    (main ⟨none, none⟩).webserverPort = 5000 ∧
    (main ⟨none, none⟩).botPolling = false := by
  decide

/-- C9 amended: only `TOKEN` is checked at startup — bot polling is skipped
exactly when `TOKEN` is absent or empty, the webserver is started
unconditionally, and `PORT` is optional with default 5000. -/
theorem startup_config_semantics (env : Env) :
    (main env).webserverStarted = true ∧
    ((main env).botPolling = false ↔ env.TOKEN = none ∨ env.TOKEN = some "") ∧
    (env.PORT = none → (main env).webserverPort = 5000) ∧
    (∀ pt, env.PORT = some pt → (main env).webserverPort = pt) := by
  obtain ⟨tok, prt⟩ := env
  refine ⟨?_, ?_, ?_, ?_⟩
  · cases tok with
    | none => rfl
    | some t => by_cases h : t = "" <;> simp [main, h]
  · cases tok with
    | none => simp [main]
    | some t => by_cases h : t = "" <;> simp [main, h]
  · intro h
    simp only at h
    subst h
    cases tok with
    | none => rfl
    | some t => by_cases ht : t = "" <;> simp [main, run_webserver_port, ht]
  · intro pt h
    simp only at h
    subst h
    cases tok with
    | none => rfl
    | some t => by_cases ht : t = "" <;> simp [main, run_webserver_port, ht]

/-- Witness for C9 amended at the empty environment. -/
theorem startup_config_semantics_witness :
    (main ⟨none, none⟩).webserverStarted = true ∧
    ((main ⟨none, none⟩).botPolling = false ↔
      (⟨none, none⟩ : Env).TOKEN = none ∨ (⟨none, none⟩ : Env).TOKEN = some "") ∧
    (main ⟨none, none⟩).webserverPort = 5000 :=
  ⟨(startup_config_semantics ⟨none, none⟩).1,
   (startup_config_semantics ⟨none, none⟩).2.1,
   (startup_config_semantics ⟨none, none⟩).2.2.1 rfl⟩

end DoItAllBot
